import Mathlib

/-!
Verification development for the bath correlation-function module
(`quantarhei/qm/corfunctions/correlationfunctions.py`).

The Python module is embedded shallowly: machine floating point is modelled
by the real numbers `ℝ`, complex sample arrays by `List ℂ`, the parameter
dictionary by a structure of `Option` fields (a missing key is `none`), and
raised exceptions by `Except` with an explicit error taxonomy.  External
collaborators that the module merely consumes (time axis, unit manager,
Fourier-transform primitive, the scipy spline integrator) are modelled from
the specification's contracts and are marked as such in their doc comments.
-/

set_option autoImplicit false

namespace Quantarhei

/-- Modelled from the spec: the Boltzmann constant expressed in the internal
unit system (`kB_intK`, imported by the source from the external module
`core.units`, which is not part of the verified source). The concrete value
is irrelevant to every claim; only the symbol appears in the formulas. -/
noncomputable def kB_intK : ℝ := 0.6950387

/-- Modelled from the spec: the unit manager's conversion of an energy scalar
into internal canonical units (`self.manager.iu_energy(x, units=...)`).  In the
internal canonical unit system the conversion is the identity, and all claims
are stated in that system. -/
def iu_energy (x : ℝ) : ℝ := x

/-- Modelled from the spec: the external time-axis collaborator — an ordered,
evenly spaced sample grid exposing its point array (`data`), its spacing
(`dt`) and its maximal value (`tmax`). -/
structure TimeAxis where
  data : List ℝ
  dt : ℝ
  tmax : ℝ

/-- The axis `length` attribute: the number of grid points. -/
def TimeAxis.length (ta : TimeAxis) : Nat := ta.data.length

/-- The `params` dictionary passed to the constructors.  Each key that the
source ever reads is a field; a missing key is `none`. -/
structure Params where
  ftype : Option String
  T : Option ℝ
  cortime : Option ℝ
  reorg : Option ℝ
  matsubara : Option Nat
  cutoff_time : Option ℝ

/-- Error taxonomy of the module, following spec section 7
(`configurationError`, `shapeMismatchError`, `incompatibleOperandError`).
`typeError` and `attributeError` model the Python built-in `TypeError` and
`AttributeError` that the source raises on two slips: `len(None)` when `copy`
rebuilds a Value-defined instance without values, and the `cf.self.timeAxis`
attribute access inside `add`. -/
inductive CFError where
  | configurationError
  | shapeMismatchError
  | incompatibleOperandError
  | typeError
  | attributeError
deriving DecidableEq

/-- The state of a constructed `CorrelationFunction` object: exactly the
attributes the Python `__init__` assigns.  The attribute `T` is assigned only
by the two analytic branches, hence an `Option`; `none` models the attribute
being absent from the instance. -/
structure CorrelationFunction where
  timeAxis : TimeAxis
  params : Params
  time_domain : Bool
  is_composed : Bool
  ftype : String
  data : List ℂ
  lamb : ℝ
  T : Option ℝ
  cutoff_time : ℝ

/-- `CorrelationFunction.allowed_types`. -/
def allowed_types : List String :=
  ["OverdampedBrownian-HighTemperature", "OverdampedBrownian", "Value-defined"]

/-- The private static method `__matsubara(kBT, tc, N, t)`: a direct
accumulation `ms += nu*nn*exp(-nu*nn*t)/((nu*nn)**2 - (1/tc)**2)` over
`ii = 0..N-1` with `nn = ii+1` and `nu = 2*pi*kBT`. -/
noncomputable def matsubara (kBT tc : ℝ) (N : Nat) (t : ℝ) : ℝ :=
  let nu := 2 * Real.pi * kBT
  (List.range N).foldl
    (fun (ms : ℝ) (ii : Nat) =>
      let nn : ℝ := (ii : ℝ) + 1
      ms + nu * nn * Real.exp (-nu * nn * t) / ((nu * nn) ^ 2 - (1 / tc) ^ 2))
    0

/-- `CorrelationFunction.__init__(timeAxis, params, values=None, domain='Time')`.
The Python constructor either assigns the attributes of the new object or
raises; it is embedded as a function into `Except`.  The branch structure,
the order of the dictionary accesses and the sample formulas mirror the
source line by line; a missing required key raises (`configurationError`,
per the spec's taxonomy for the generic re-raise / `KeyError`). -/
noncomputable def CorrelationFunction.init (timeAxis : TimeAxis) (params : Params)
    (values : Option (List ℂ)) (domain : String) :
    Except CFError CorrelationFunction :=
  let time_domain : Bool := domain == "Time"
  match params.ftype with
  | none => .error .configurationError
  | some ftype =>
    if ftype ∈ allowed_types then
      if ftype == "OverdampedBrownian-HighTemperature" && time_domain then
        match params.T with
        | none => .error .configurationError
        | some T =>
          match params.cortime with
          | none => .error .configurationError
          | some tc =>
            match params.reorg with
            | none => .error .configurationError
            | some reorg =>
              let lamb := iu_energy reorg
              let kBT := kB_intK * T
              let cc : ℝ → ℂ := fun t =>
                ((2 * lamb * kBT * Real.exp (-t / tc) : ℝ) : ℂ)
                  - Complex.I * (((lamb / tc) * Real.exp (-t / tc) : ℝ) : ℂ)
              .ok { timeAxis := timeAxis, params := params,
                    time_domain := time_domain, is_composed := false,
                    ftype := ftype, data := timeAxis.data.map cc,
                    lamb := lamb, T := some T, cutoff_time := 5 * tc }
      else if ftype == "OverdampedBrownian" then
        match params.T with
        | none => .error .configurationError
        | some T =>
          match params.cortime with
          | none => .error .configurationError
          | some tc =>
            match params.reorg with
            | none => .error .configurationError
            | some reorg =>
              let lamb := iu_energy reorg
              let N : Nat := params.matsubara.getD 10
              let kBT := kB_intK * T
              let cc : ℝ → ℂ := fun t =>
                (((lamb / (tc * Real.tan (1 / (2 * kBT * tc))))
                    * Real.exp (-t / tc) : ℝ) : ℂ)
                  - Complex.I * (((lamb / tc) * Real.exp (-t / tc) : ℝ) : ℂ)
                  + ((4 * lamb * kBT / tc * matsubara kBT tc N t : ℝ) : ℂ)
              .ok { timeAxis := timeAxis, params := params,
                    time_domain := time_domain, is_composed := false,
                    ftype := ftype, data := timeAxis.data.map cc,
                    lamb := lamb, T := some T, cutoff_time := 5 * tc }
      else if ftype == "Value-defined" && time_domain then
        match params.reorg with
        | none => .error .configurationError
        | some reorg =>
          let lamb := iu_energy reorg
          let tcut := params.cutoff_time.getD timeAxis.tmax
          match values with
          | none => .error .typeError
          | some vals =>
            if vals.length = timeAxis.length then
              .ok { timeAxis := timeAxis, params := params,
                    time_domain := time_domain, is_composed := false,
                    ftype := ftype, data := vals,
                    lamb := lamb, T := none, cutoff_time := tcut }
            else .error .shapeMismatchError
      else .error .configurationError
    else .error .configurationError

/-- `get_temperature` returns the attribute `self.T`; the result `none` models
the `AttributeError` raised when the attribute was never assigned (the
Value-defined branch assigns no temperature). -/
def CorrelationFunction.get_temperature (c : CorrelationFunction) : Option ℝ :=
  c.T

/-- The Python attribute lookup `cf.self` performed by `add`: no code path ever
assigns an attribute named `self` on a `CorrelationFunction` instance (and no
collaborator documents one), so the lookup always fails. -/
def CorrelationFunction.selfAttr (_ : CorrelationFunction) :
    Option CorrelationFunction := none

/-- `CorrelationFunction.add(self, cf)`.  The guard of the source is
`(self.timeAxis == cf.self.timeAxis) and (self.T == cf.T)`; evaluating
`cf.self` raises `AttributeError` before anything is compared or mutated, so
the accumulation body below is unreachable. -/
noncomputable def CorrelationFunction.add (self cf : CorrelationFunction) :
    Except CFError CorrelationFunction :=
  match cf.selfAttr with
  | none => .error .attributeError
  | some s =>
    if self.timeAxis.data = s.timeAxis.data ∧ self.T = cf.T then
      .ok { self with
            lamb := self.lamb + cf.lamb,
            data := List.zipWith (· + ·) self.data cf.data,
            cutoff_time :=
              if self.cutoff_time < cf.cutoff_time then cf.cutoff_time
              else self.cutoff_time,
            is_composed := true }
    else .error .incompatibleOperandError

/-- `CorrelationFunction.copy`: rebuilds from the stored axis and parameter
set, with the default arguments `values=None` and `domain='Time'`. -/
noncomputable def CorrelationFunction.copy (c : CorrelationFunction) :
    Except CFError CorrelationFunction :=
  CorrelationFunction.init c.timeAxis c.params none "Time"

/-- Modelled from the spec: the rotation of Fourier data into ascending
frequency order (the symmetry rotation performed by the external
tabulated-function collaborator, numpy `fftshift`). -/
def fftshift (l : List ℂ) : List ℂ :=
  l.drop ((l.length + 1) / 2) ++ l.take ((l.length + 1) / 2)

/-- Modelled from the spec: the external tabulated-function Fourier-transform
primitive (`DFunction.get_Fourier_transform`) — a standard discrete transform
normalized by the grid spacing, with symmetry rotation to ascending frequency
order. -/
noncomputable def get_Fourier_transform (dt : ℝ) (d : List ℂ) : List ℂ :=
  fftshift ((List.range d.length).map fun k =>
    (dt : ℂ) * ∑ j ∈ Finset.range d.length,
      d.getD j 0 *
        Complex.exp (-2 * Real.pi * Complex.I * (j : ℂ) * (k : ℂ) / (d.length : ℂ)))

/-- `OddFTCorrelationFunction.__init__(axis, params)`: checks the type tag,
builds a `CorrelationFunction` on the axis, replaces its samples with
`1j*numpy.imag(data)` and Fourier-transforms them.  Only the resulting
frequency-domain sample sequence is represented; the external transform is the
spec-modelled `get_Fourier_transform`. -/
noncomputable def OddFTCorrelationFunction.init (axis : TimeAxis) (params : Params) :
    Except CFError (List ℂ) :=
  match params.ftype with
  | none => .error .configurationError
  | some ftype =>
    if ftype ∈ allowed_types then
      match CorrelationFunction.init axis params none "Time" with
      | .error e => .error e
      | .ok cf =>
        .ok (get_Fourier_transform axis.dt
          (cf.data.map fun z => Complex.I * ((z.im : ℝ) : ℂ)))
    else .error .configurationError

/-- `EvenFTCorrelationFunction.__init__(axis, params)`: as the odd variant,
but the samples are replaced with `numpy.real(data)` before the transform. -/
noncomputable def EvenFTCorrelationFunction.init (axis : TimeAxis) (params : Params) :
    Except CFError (List ℂ) :=
  match params.ftype with
  | none => .error .configurationError
  | some ftype =>
    if ftype ∈ allowed_types then
      match CorrelationFunction.init axis params none "Time" with
      | .error e => .error e
      | .ok cf =>
        .ok (get_Fourier_transform axis.dt
          (cf.data.map fun z => ((z.re : ℝ) : ℂ)))
    else .error .configurationError

/-!
Model of the scipy call
`scipy.interpolate.UnivariateSpline(x, y, s=0).antiderivative()(x)`, the
external integrator used by `c2g` and `c2h`.  Modelled from the spec: an
interpolating cubic spline with zero smoothing through `(grid, part)`, whose
antiderivative is evaluated at every grid point.  The model is the classical
natural cubic spline: the knot second derivatives solve the standard
tridiagonal system, and the antiderivative accumulates the exact integral of
the cubic pieces between consecutive knots.
-/

/-- Tridiagonal matrix of the natural-cubic-spline second-derivative system
over knots `x 0, …, x (n-1)` (rows `0` and `n-1` pin the natural boundary
conditions). -/
noncomputable def splineMatrix (x : Nat → ℝ) (n : Nat) :
    Matrix (Fin n) (Fin n) ℝ :=
  fun i j =>
    if i.val = 0 ∨ i.val = n - 1 then (if j = i then 1 else 0)
    else if j.val = i.val - 1 then x i.val - x (i.val - 1)
    else if j = i then 2 * (x (i.val + 1) - x (i.val - 1))
    else if j.val = i.val + 1 then x (i.val + 1) - x i.val
    else 0

/-- Right-hand side of the spline system: divided-difference data, zero at the
natural boundary rows.  Linear in the data `y`. -/
noncomputable def splineRHS (x y : Nat → ℝ) (n : Nat) : Fin n → ℝ :=
  fun i =>
    if i.val = 0 ∨ i.val = n - 1 then 0
    else 6 * ((y (i.val + 1) - y i.val) / (x (i.val + 1) - x i.val)
              - (y i.val - y (i.val - 1)) / (x i.val - x (i.val - 1)))

/-- Knot second derivatives of the interpolating natural cubic spline. -/
noncomputable def splineSecondDeriv (x y : Nat → ℝ) (n : Nat) : Fin n → ℝ :=
  Matrix.mulVec (splineMatrix x n)⁻¹ (splineRHS x y n)

/-- Antiderivative of the spline accumulated knot by knot: over
`[x j, x (j+1)]` the exact integral of the cubic piece with values
`y j, y (j+1)` and second derivatives `M j, M (j+1)` is
`h*(y j + y (j+1))/2 - h^3*(M j + M (j+1))/24`. -/
noncomputable def splineAntiderAux (x y M : Nat → ℝ) : Nat → ℝ
  | 0 => 0
  | j + 1 =>
    splineAntiderAux x y M j
      + (x (j + 1) - x j) * (y j + y (j + 1)) / 2
      - (x (j + 1) - x j) ^ 3 * (M j + M (j + 1)) / 24

/-- Modelled from the spec:
`scipy.interpolate.UnivariateSpline(xs, ys, s=0).antiderivative()(xs)` — the
antiderivative of the interpolating zero-smoothing cubic spline, evaluated at
every grid point. -/
noncomputable def splineAntider (xs ys : List ℝ) : List ℝ :=
  (List.range xs.length).map
    (splineAntiderAux (fun i => xs.getD i 0) (fun i => ys.getD i 0)
      (fun i : Nat =>
        if h : i < xs.length then
          splineSecondDeriv (fun i => xs.getD i 0) (fun i => ys.getD i 0)
            xs.length ⟨i, h⟩
        else 0))

/-- One part of `c2g`: integrate a real part twice
(spline + antiderivative + evaluate, applied twice). -/
noncomputable def doubleIntegral (ta : TimeAxis) (l : List ℝ) : List ℝ :=
  splineAntider ta.data (splineAntider ta.data l)

/-- `c2g(timeaxis, coft)`: double-integrates real and imaginary parts
independently and recombines them as `sr + 1j*si`. -/
noncomputable def c2g (ta : TimeAxis) (coft : List ℂ) : List ℂ :=
  let rr := coft.map Complex.re
  let ri := coft.map Complex.im
  let sr := doubleIntegral ta rr
  let si := doubleIntegral ta ri
  List.zipWith (fun a b => ((a : ℝ) : ℂ) + Complex.I * ((b : ℝ) : ℂ)) sr si

/-- `c2h(timeaxis, coft)`: single integration per part. -/
noncomputable def c2h (ta : TimeAxis) (coft : List ℂ) : List ℂ :=
  let rr := coft.map Complex.re
  let ri := coft.map Complex.im
  let sr := splineAntider ta.data rr
  let si := splineAntider ta.data ri
  List.zipWith (fun a b => ((a : ℝ) : ℂ) + Complex.I * ((b : ℝ) : ℂ)) sr si

/-- `h2g(timeaxis, coft)`: alias of `c2h`. -/
noncomputable def h2g (ta : TimeAxis) (coft : List ℂ) : List ℂ :=
  c2h ta coft

/-!  Helper evaluation lemmas for the constructor branches. -/

/-- The high-temperature sample formula of the source, as a function of `t`. -/
noncomputable def obhtSample (T tc lamb : ℝ) (t : ℝ) : ℂ :=
  ((2 * lamb * (kB_intK * T) * Real.exp (-t / tc) : ℝ) : ℂ)
    - Complex.I * (((lamb / tc) * Real.exp (-t / tc) : ℝ) : ℂ)

/-- The general overdamped-Brownian sample formula of the source, as a
function of `t`, with Matsubara truncation `N`. -/
noncomputable def obSample (T tc lamb : ℝ) (N : Nat) (t : ℝ) : ℂ :=
  (((lamb / (tc * Real.tan (1 / (2 * (kB_intK * T) * tc))))
      * Real.exp (-t / tc) : ℝ) : ℂ)
    - Complex.I * (((lamb / tc) * Real.exp (-t / tc) : ℝ) : ℂ)
    + ((4 * lamb * (kB_intK * T) / tc * matsubara (kB_intK * T) tc N t : ℝ) : ℂ)

theorem init_obht_eq (ta : TimeAxis) (p : Params) (vals : Option (List ℂ))
    (T tc r : ℝ) (hf : p.ftype = some "OverdampedBrownian-HighTemperature")
    (hT : p.T = some T) (htc : p.cortime = some tc) (hr : p.reorg = some r) :
    CorrelationFunction.init ta p vals "Time" =
      .ok { timeAxis := ta, params := p, time_domain := true,
            is_composed := false,
            ftype := "OverdampedBrownian-HighTemperature",
            data := ta.data.map (obhtSample T tc r),
            lamb := r, T := some T, cutoff_time := 5 * tc } := by
  simp [CorrelationFunction.init, hf, hT, htc, hr, allowed_types, iu_energy,
    obhtSample]

theorem init_ob_eq (ta : TimeAxis) (p : Params) (vals : Option (List ℂ))
    (dom : String) (T tc r : ℝ)
    (hf : p.ftype = some "OverdampedBrownian")
    (hT : p.T = some T) (htc : p.cortime = some tc) (hr : p.reorg = some r) :
    CorrelationFunction.init ta p vals dom =
      .ok { timeAxis := ta, params := p, time_domain := dom == "Time",
            is_composed := false,
            ftype := "OverdampedBrownian",
            data := ta.data.map (obSample T tc r (p.matsubara.getD 10)),
            lamb := r, T := some T, cutoff_time := 5 * tc } := by
  simp [CorrelationFunction.init, hf, hT, htc, hr, allowed_types, iu_energy,
    obSample]

theorem init_vd_eq (ta : TimeAxis) (p : Params) (vals : List ℂ) (r : ℝ)
    (hf : p.ftype = some "Value-defined") (hr : p.reorg = some r)
    (hlen : vals.length = ta.length) :
    CorrelationFunction.init ta p (some vals) "Time" =
      .ok { timeAxis := ta, params := p, time_domain := true,
            is_composed := false, ftype := "Value-defined",
            data := vals, lamb := r, T := none,
            cutoff_time := p.cutoff_time.getD ta.tmax } := by
  simp [CorrelationFunction.init, hf, hr, hlen, allowed_types, iu_energy]

theorem init_ok_ftype (ta : TimeAxis) (p : Params) (vals : Option (List ℂ))
    (dom : String) (cf : CorrelationFunction)
    (h : CorrelationFunction.init ta p vals dom = .ok cf) :
    ∃ f, p.ftype = some f ∧ f ∈ allowed_types := by
  rcases hft : p.ftype with _ | f
  · rw [CorrelationFunction.init, hft] at h
    exact absurd h (by simp)
  · by_cases hmem : f ∈ allowed_types
    · exact ⟨f, rfl, hmem⟩
    · exfalso
      simp [CorrelationFunction.init, hft, hmem] at h

theorem init_obht_inv (ta : TimeAxis) (p : Params) (vals : Option (List ℂ))
    (dom : String) (cf : CorrelationFunction)
    (hf : p.ftype = some "OverdampedBrownian-HighTemperature")
    (h : CorrelationFunction.init ta p vals dom = .ok cf) :
    dom = "Time" ∧ ∃ T tc r, p.T = some T ∧ p.cortime = some tc ∧
      p.reorg = some r ∧
      cf = { timeAxis := ta, params := p, time_domain := true,
             is_composed := false,
             ftype := "OverdampedBrownian-HighTemperature",
             data := ta.data.map (obhtSample T tc r), lamb := r,
             T := some T, cutoff_time := 5 * tc } := by
  cases hdom : dom == "Time" with
  | false =>
    exfalso
    simp [CorrelationFunction.init, hf, allowed_types, hdom] at h
  | true =>
    have hdom' : dom = "Time" := eq_of_beq hdom
    rcases hT : p.T with _ | T
    · exfalso
      simp [CorrelationFunction.init, hf, hT, allowed_types, hdom] at h
    rcases htc : p.cortime with _ | tc
    · exfalso
      simp [CorrelationFunction.init, hf, hT, htc, allowed_types, hdom] at h
    rcases hr : p.reorg with _ | r
    · exfalso
      simp [CorrelationFunction.init, hf, hT, htc, hr, allowed_types, hdom] at h
    refine ⟨hdom', T, tc, r, rfl, rfl, rfl, ?_⟩
    rw [hdom'] at h
    rw [init_obht_eq ta p vals T tc r hf hT htc hr] at h
    injection h with h
    exact h.symm

theorem init_ob_inv (ta : TimeAxis) (p : Params) (vals : Option (List ℂ))
    (dom : String) (cf : CorrelationFunction)
    (hf : p.ftype = some "OverdampedBrownian")
    (h : CorrelationFunction.init ta p vals dom = .ok cf) :
    ∃ T tc r, p.T = some T ∧ p.cortime = some tc ∧ p.reorg = some r ∧
      cf = { timeAxis := ta, params := p, time_domain := dom == "Time",
             is_composed := false, ftype := "OverdampedBrownian",
             data := ta.data.map (obSample T tc r (p.matsubara.getD 10)),
             lamb := r, T := some T, cutoff_time := 5 * tc } := by
  rcases hT : p.T with _ | T
  · exfalso
    simp [CorrelationFunction.init, hf, hT, allowed_types] at h
  rcases htc : p.cortime with _ | tc
  · exfalso
    simp [CorrelationFunction.init, hf, hT, htc, allowed_types] at h
  rcases hr : p.reorg with _ | r
  · exfalso
    simp [CorrelationFunction.init, hf, hT, htc, hr, allowed_types] at h
  refine ⟨T, tc, r, rfl, rfl, rfl, ?_⟩
  rw [init_ob_eq ta p vals dom T tc r hf hT htc hr] at h
  injection h with h
  exact h.symm

theorem init_vd_T_none (ta : TimeAxis) (p : Params) (vals : Option (List ℂ))
    (dom : String) (cf : CorrelationFunction)
    (hf : p.ftype = some "Value-defined")
    (h : CorrelationFunction.init ta p vals dom = .ok cf) :
    cf.T = none := by
  cases hdom : dom == "Time" with
  | false =>
    exfalso
    simp [CorrelationFunction.init, hf, allowed_types, hdom] at h
  | true =>
    rcases hr : p.reorg with _ | r
    · exfalso
      simp [CorrelationFunction.init, hf, hr, allowed_types, hdom] at h
    rcases hv : vals with _ | v
    · exfalso
      simp [CorrelationFunction.init, hf, hr, hv, allowed_types, hdom] at h
    by_cases hlen : v.length = ta.length
    · rw [CorrelationFunction.init, hf] at h
      simp only [allowed_types, hdom, hr, hlen, hv] at h
      simp at h
      subst h
      rfl
    · exfalso
      simp [CorrelationFunction.init, hf, hr, hv, hlen, allowed_types, hdom] at h

/-!  Algebra lemmas used to rewrite the source formulas into the spec's
notation (`1/tan` as `cot`, the accumulation loop as a `Σ` over `1..N`). -/

theorem div_mul_tan (a b x : ℝ) :
    a / (b * Real.tan x) = a / b * Real.cot x := by
  rw [Real.tan_eq_sin_div_cos, Real.cot_eq_cos_div_sin]
  rw [div_eq_mul_inv, mul_inv, inv_div]
  ring

theorem matsubara_succ (kBT tc t : ℝ) (N : Nat) :
    matsubara kBT tc (N + 1) t =
      matsubara kBT tc N t +
        2 * Real.pi * kBT * ((N : ℝ) + 1) *
          Real.exp (-(2 * Real.pi * kBT) * ((N : ℝ) + 1) * t) /
          ((2 * Real.pi * kBT * ((N : ℝ) + 1)) ^ 2 - (1 / tc) ^ 2) := by
  unfold matsubara
  rw [List.range_succ, List.foldl_append]
  simp

theorem matsubara_eq_sum (kBT tc t : ℝ) (N : Nat) :
    matsubara kBT tc N t =
      ∑ n ∈ Finset.Icc 1 N,
        2 * Real.pi * kBT * (n : ℝ) *
          Real.exp (-(2 * Real.pi * kBT) * (n : ℝ) * t) /
          ((2 * Real.pi * kBT * (n : ℝ)) ^ 2 - (1 / tc) ^ 2) := by
  induction N with
  | zero => simp [matsubara]
  | succ N ih =>
    rw [matsubara_succ, ih,
      Finset.sum_Icc_succ_top (Nat.succ_le_succ (Nat.zero_le N))]
    push_cast
    ring_nf

/-!  Concrete fixtures used by the witnesses and counterexamples. -/

/-- A one-point time grid. -/
def axW : TimeAxis := { data := [0], dt := 1, tmax := 0 }

/-- High-temperature parameters `T=1, cortime=1, reorg=1`. -/
def pW1 : Params :=
  { ftype := some "OverdampedBrownian-HighTemperature", T := some 1,
    cortime := some 1, reorg := some 1, matsubara := none,
    cutoff_time := none }

/-- General overdamped-Brownian parameters `T=1, cortime=1, reorg=1`. -/
def pW2 : Params :=
  { ftype := some "OverdampedBrownian", T := some 1, cortime := some 1,
    reorg := some 1, matsubara := none, cutoff_time := none }

/-!  Claim theorems. -/

/-- C1: for every time grid, `T>0`, `τc>0` and reorganization energy `λ`,
constructing a `CorrelationFunction` with ftype
OverdampedBrownian-HighTemperature in the time domain produces at each grid
point `t` the sample `2λ·kB·T·exp(-t/τc) − i·(λ/τc)·exp(-t/τc)`; in
particular the sample at `t=0` equals `2λ·kB·T − i·λ/τc`, and the cutoff time
is `5·τc`. -/
theorem C1_obht_samples (ta : TimeAxis) (p : Params) (vals : Option (List ℂ))
    (T tc lamb : ℝ)
    (hf : p.ftype = some "OverdampedBrownian-HighTemperature")
    (hT : p.T = some T) (htc : p.cortime = some tc) (hr : p.reorg = some lamb)
    (hTpos : 0 < T) (htcpos : 0 < tc) :
    CorrelationFunction.init ta p vals "Time" =
      .ok { timeAxis := ta, params := p, time_domain := true,
            is_composed := false,
            ftype := "OverdampedBrownian-HighTemperature",
            data := ta.data.map (fun t =>
              ((2 * lamb * kB_intK * T * Real.exp (-t / tc) : ℝ) : ℂ)
                - Complex.I * ((lamb / tc * Real.exp (-t / tc) : ℝ) : ℂ)),
            lamb := lamb, T := some T, cutoff_time := 5 * tc }
    ∧ ((2 * lamb * kB_intK * T * Real.exp (-(0 : ℝ) / tc) : ℝ) : ℂ)
        - Complex.I * ((lamb / tc * Real.exp (-(0 : ℝ) / tc) : ℝ) : ℂ)
      = ((2 * lamb * kB_intK * T : ℝ) : ℂ)
          - Complex.I * ((lamb / tc : ℝ) : ℂ) := by
  constructor
  · rw [init_obht_eq ta p vals T tc lamb hf hT htc hr]
    have hfun : obhtSample T tc lamb = fun t =>
        ((2 * lamb * kB_intK * T * Real.exp (-t / tc) : ℝ) : ℂ)
          - Complex.I * ((lamb / tc * Real.exp (-t / tc) : ℝ) : ℂ) := by
      funext t
      unfold obhtSample
      push_cast
      ring
    rw [hfun]
  · norm_num

/-- Witness for C1 at the concrete grid `[0]` and parameters
`T=1, τc=1, λ=1`. -/
theorem C1_obht_samples_witness :
    CorrelationFunction.init axW pW1 none "Time" =
      .ok { timeAxis := axW, params := pW1, time_domain := true,
            is_composed := false,
            ftype := "OverdampedBrownian-HighTemperature",
            data := axW.data.map (fun t =>
              ((2 * 1 * kB_intK * 1 * Real.exp (-t / 1) : ℝ) : ℂ)
                - Complex.I * ((1 / 1 * Real.exp (-t / 1) : ℝ) : ℂ)),
            lamb := 1, T := some 1, cutoff_time := 5 * 1 } :=
  (C1_obht_samples axW pW1 none 1 1 1 rfl rfl rfl rfl one_pos one_pos).1

/-- C2: for every time grid and `T>0, τc>0, λ`, constructing with ftype
OverdampedBrownian produces at each grid point `t`
`(λ/τc)·cot(1/(2·kB·T·τc))·exp(-t/τc) − i·(λ/τc)·exp(-t/τc) +
(4·λ·kB·T/τc)·Σ_{n=1}^{N} ν·n·exp(-ν·n·t)/((ν·n)² − (1/τc)²)` with
`ν = 2π·kB·T`, where the Matsubara sum is a direct accumulation over
`n = 1..N` and `N` defaults to `10` when the `matsubara` parameter is
absent. -/
theorem C2_ob_samples (ta : TimeAxis) (p : Params) (vals : Option (List ℂ))
    (T tc lamb : ℝ)
    (hf : p.ftype = some "OverdampedBrownian")
    (hT : p.T = some T) (htc : p.cortime = some tc) (hr : p.reorg = some lamb)
    (hTpos : 0 < T) (htcpos : 0 < tc) :
    (CorrelationFunction.init ta p vals "Time" =
      .ok { timeAxis := ta, params := p, time_domain := true,
            is_composed := false, ftype := "OverdampedBrownian",
            data := ta.data.map (fun t =>
              ((lamb / tc * Real.cot (1 / (2 * (kB_intK * T) * tc))
                  * Real.exp (-t / tc) : ℝ) : ℂ)
                - Complex.I * ((lamb / tc * Real.exp (-t / tc) : ℝ) : ℂ)
                + ((4 * lamb * (kB_intK * T) / tc *
                    ∑ n ∈ Finset.Icc 1 (p.matsubara.getD 10),
                      2 * Real.pi * (kB_intK * T) * (n : ℝ) *
                        Real.exp (-(2 * Real.pi * (kB_intK * T)) * (n : ℝ) * t) /
                        ((2 * Real.pi * (kB_intK * T) * (n : ℝ)) ^ 2
                          - (1 / tc) ^ 2) : ℝ) : ℂ)),
            lamb := lamb, T := some T, cutoff_time := 5 * tc })
    ∧ (p.matsubara = none → p.matsubara.getD 10 = 10) := by
  constructor
  · rw [init_ob_eq ta p vals "Time" T tc lamb hf hT htc hr]
    have hfun : obSample T tc lamb (p.matsubara.getD 10) = fun t =>
        ((lamb / tc * Real.cot (1 / (2 * (kB_intK * T) * tc))
            * Real.exp (-t / tc) : ℝ) : ℂ)
          - Complex.I * ((lamb / tc * Real.exp (-t / tc) : ℝ) : ℂ)
          + ((4 * lamb * (kB_intK * T) / tc *
              ∑ n ∈ Finset.Icc 1 (p.matsubara.getD 10),
                2 * Real.pi * (kB_intK * T) * (n : ℝ) *
                  Real.exp (-(2 * Real.pi * (kB_intK * T)) * (n : ℝ) * t) /
                  ((2 * Real.pi * (kB_intK * T) * (n : ℝ)) ^ 2
                    - (1 / tc) ^ 2) : ℝ) : ℂ) := by
      funext t
      unfold obSample
      rw [matsubara_eq_sum, div_mul_tan]
    rw [hfun]
    simp
  · intro h
    rw [h]
    rfl

/-- Witness for C2 at the concrete grid `[0]` and parameters
`T=1, τc=1, λ=1`, no `matsubara` key. -/
theorem C2_ob_samples_witness :
    ∃ cf, CorrelationFunction.init axW pW2 none "Time" = .ok cf :=
  ⟨_, (C2_ob_samples axW pW2 none 1 1 1 rfl rfl rfl rfl one_pos one_pos).1⟩

/-- Parameters with an unrecognized type tag. -/
def pBad : Params :=
  { ftype := some "Gaussian", T := some 1, cortime := some 1,
    reorg := some 1, matsubara := none, cutoff_time := none }

/-- Value-defined parameters with `reorg=0`. -/
def pVd : Params :=
  { ftype := some "Value-defined", T := none, cortime := none,
    reorg := some 0, matsubara := none, cutoff_time := none }

/-- C7: construction raises ConfigurationError for an unknown or missing type
tag, for a missing required parameter of the requested type, and for a
time-domain-only type requested outside the time domain; and for every
allowed ftype with its required inputs present in the time domain the
construction succeeds. -/
theorem C7_init_validation (ta : TimeAxis) (p : Params) (vals : Option (List ℂ))
    (dom : String) :
    ((∀ f, p.ftype = some f → f ∉ allowed_types) →
      CorrelationFunction.init ta p vals dom = .error .configurationError)
    ∧ (p.ftype = some "OverdampedBrownian-HighTemperature" → dom = "Time" →
        (p.T = none ∨ p.cortime = none ∨ p.reorg = none) →
        CorrelationFunction.init ta p vals dom = .error .configurationError)
    ∧ (p.ftype = some "OverdampedBrownian" →
        (p.T = none ∨ p.cortime = none ∨ p.reorg = none) →
        CorrelationFunction.init ta p vals dom = .error .configurationError)
    ∧ (p.ftype = some "Value-defined" → dom = "Time" → p.reorg = none →
        CorrelationFunction.init ta p vals dom = .error .configurationError)
    ∧ ((p.ftype = some "OverdampedBrownian-HighTemperature" ∨
        p.ftype = some "Value-defined") → dom ≠ "Time" →
        CorrelationFunction.init ta p vals dom = .error .configurationError)
    ∧ (∀ T tc r, p.ftype = some "OverdampedBrownian-HighTemperature" →
        p.T = some T → p.cortime = some tc → p.reorg = some r →
        ∃ cf, CorrelationFunction.init ta p vals "Time" = .ok cf)
    ∧ (∀ T tc r, p.ftype = some "OverdampedBrownian" →
        p.T = some T → p.cortime = some tc → p.reorg = some r →
        ∃ cf, CorrelationFunction.init ta p vals "Time" = .ok cf)
    ∧ (∀ r v, p.ftype = some "Value-defined" → p.reorg = some r →
        vals = some v → v.length = ta.length →
        ∃ cf, CorrelationFunction.init ta p vals "Time" = .ok cf) := by
  refine ⟨?_, ?_, ?_, ?_, ?_, ?_, ?_, ?_⟩
  · intro hn
    rcases hft : p.ftype with _ | f
    · simp [CorrelationFunction.init, hft]
    · have hmem := hn f hft
      simp [CorrelationFunction.init, hft, hmem]
  · intro hf hdom hm
    subst hdom
    rcases hm with h | h | h
    · simp [CorrelationFunction.init, hf, h, allowed_types]
    · rcases hT : p.T with _ | T <;>
        simp [CorrelationFunction.init, hf, hT, h, allowed_types]
    · rcases hT : p.T with _ | T <;>
        rcases htc : p.cortime with _ | tc <;>
        simp [CorrelationFunction.init, hf, hT, htc, h, allowed_types]
  · intro hf hm
    rcases hm with h | h | h
    · simp [CorrelationFunction.init, hf, h, allowed_types]
    · rcases hT : p.T with _ | T <;>
        simp [CorrelationFunction.init, hf, hT, h, allowed_types]
    · rcases hT : p.T with _ | T <;>
        rcases htc : p.cortime with _ | tc <;>
        simp [CorrelationFunction.init, hf, hT, htc, h, allowed_types]
  · intro hf hdom hm
    subst hdom
    simp [CorrelationFunction.init, hf, hm, allowed_types]
  · intro hfor hdom
    have hd : (dom == "Time") = false := by
      simpa using hdom
    rcases hfor with hf | hf <;>
      simp [CorrelationFunction.init, hf, hd, allowed_types]
  · intro T tc r hf hT htc hr
    exact ⟨_, init_obht_eq ta p vals T tc r hf hT htc hr⟩
  · intro T tc r hf hT htc hr
    exact ⟨_, init_ob_eq ta p vals "Time" T tc r hf hT htc hr⟩
  · intro r v hf hr hv hlen
    subst hv
    exact ⟨_, init_vd_eq ta p v r hf hr hlen⟩

/-- Witness for C7: an unrecognized type tag errors; a fully parameterized
high-temperature construction succeeds. -/
theorem C7_init_validation_witness :
    CorrelationFunction.init axW pBad none "Time" =
      .error .configurationError
    ∧ ∃ cf, CorrelationFunction.init axW pW1 none "Time" = .ok cf :=
  ⟨(C7_init_validation axW pBad none "Time").1
      (by intro f h; injection h with h; subst h; decide),
   (C7_init_validation axW pW1 none "Time").2.2.2.2.2.1 1 1 1 rfl rfl rfl rfl⟩

/-- C8: for every grid and raw value list whose length differs from the grid
length, Value-defined construction errors with ShapeMismatchError; when the
lengths agree, the supplied values become the samples unchanged. -/
theorem C8_vd_shape (ta : TimeAxis) (p : Params) (v : List ℂ) (r : ℝ)
    (hf : p.ftype = some "Value-defined") (hr : p.reorg = some r) :
    (v.length ≠ ta.length →
      CorrelationFunction.init ta p (some v) "Time" =
        .error .shapeMismatchError)
    ∧ (v.length = ta.length →
      CorrelationFunction.init ta p (some v) "Time" =
        .ok { timeAxis := ta, params := p, time_domain := true,
              is_composed := false, ftype := "Value-defined", data := v,
              lamb := r, T := none,
              cutoff_time := p.cutoff_time.getD ta.tmax }) := by
  constructor
  · intro hlen
    simp [CorrelationFunction.init, hf, hr, hlen, allowed_types]
  · intro hlen
    exact init_vd_eq ta p v r hf hr hlen

/-- Witness for C8 on the one-point grid: a two-element value list errors, a
one-element list is stored unchanged. -/
theorem C8_vd_shape_witness :
    CorrelationFunction.init axW pVd (some [0, 0]) "Time" =
      .error .shapeMismatchError
    ∧ CorrelationFunction.init axW pVd (some [0]) "Time" =
      .ok { timeAxis := axW, params := pVd, time_domain := true,
            is_composed := false, ftype := "Value-defined", data := [0],
            lamb := 0, T := none,
            cutoff_time := pVd.cutoff_time.getD axW.tmax } :=
  ⟨(C8_vd_shape axW pVd [0, 0] 0 rfl rfl).1 (by decide),
   (C8_vd_shape axW pVd [0] 0 rfl rfl).2 rfl⟩

/-- C10: `get_temperature` returns the construction temperature for the two
analytic types, but a Value-defined instance never records a temperature and
the attribute access yields nothing (`AttributeError`). -/
theorem C10_get_temperature (ta : TimeAxis) (p : Params)
    (vals : Option (List ℂ)) (dom : String) (cf : CorrelationFunction)
    (h : CorrelationFunction.init ta p vals dom = .ok cf) :
    ((p.ftype = some "OverdampedBrownian-HighTemperature" ∨
      p.ftype = some "OverdampedBrownian") → cf.get_temperature = p.T)
    ∧ (p.ftype = some "Value-defined" → cf.get_temperature = none) := by
  constructor
  · rintro (hf | hf)
    · obtain ⟨-, T, tc, r, hT, htc, hr, hcf⟩ :=
        init_obht_inv ta p vals dom cf hf h
      simp [CorrelationFunction.get_temperature, hcf, hT]
    · obtain ⟨T, tc, r, hT, htc, hr, hcf⟩ :=
        init_ob_inv ta p vals dom cf hf h
      simp [CorrelationFunction.get_temperature, hcf, hT]
  · intro hf
    exact init_vd_T_none ta p vals dom cf hf h

/-- Witness for C10: a high-temperature instance reports `T=1`; a
Value-defined instance reports no temperature. -/
theorem C10_get_temperature_witness :
    (∃ cf, CorrelationFunction.init axW pW1 none "Time" = .ok cf ∧
      cf.get_temperature = some 1)
    ∧ (∃ cf, CorrelationFunction.init axW pVd (some [0]) "Time" = .ok cf ∧
      cf.get_temperature = none) := by
  constructor
  · refine ⟨_, init_obht_eq axW pW1 none 1 1 1 rfl rfl rfl rfl, ?_⟩
    exact ((C10_get_temperature axW pW1 none "Time" _
      (init_obht_eq axW pW1 none 1 1 1 rfl rfl rfl rfl)).1 (Or.inl rfl)).trans rfl
  · refine ⟨_, init_vd_eq axW pVd [0] 0 rfl rfl rfl, ?_⟩
    exact (C10_get_temperature axW pVd (some [0]) "Time" _
      (init_vd_eq axW pVd [0] 0 rfl rfl rfl)).2 rfl

/-!  Zero-preservation of the modelled external primitives. -/

theorem getD_of_all_eq {α : Type _} (l : List α) (z : α)
    (hz : ∀ a ∈ l, a = z) (i : Nat) : l.getD i z = z := by
  induction l generalizing i with
  | nil => simp
  | cons a t ih =>
    cases i with
    | zero => simpa using hz a (by simp)
    | succ j =>
      simpa using ih (fun x hx => hz x (by simp [hx])) j

theorem get_Fourier_transform_zero (dt : ℝ) (d : List ℂ)
    (hd : ∀ z ∈ d, z = 0) :
    ∀ z ∈ get_Fourier_transform dt d, z = 0 := by
  intro z hz
  unfold get_Fourier_transform fftshift at hz
  have hmem : ∀ w ∈ (List.range d.length).map (fun k =>
      (dt : ℂ) * ∑ j ∈ Finset.range d.length,
        d.getD j 0 *
          Complex.exp (-2 * Real.pi * Complex.I * (j : ℂ) * (k : ℂ) /
            (d.length : ℂ))), w = 0 := by
    intro w hw
    obtain ⟨k, hk, rfl⟩ := List.mem_map.1 hw
    have hsum : ∀ j ∈ Finset.range d.length,
        d.getD j 0 *
          Complex.exp (-2 * Real.pi * Complex.I * (j : ℂ) * (k : ℂ) /
            (d.length : ℂ)) = 0 := by
      intro j hj
      rw [getD_of_all_eq d 0 hd j, zero_mul]
    rw [Finset.sum_eq_zero hsum, mul_zero]
  rcases List.mem_append.1 hz with h | h
  · exact hmem z (List.mem_of_mem_drop h)
  · exact hmem z (List.mem_of_mem_take h)

theorem splineRHS_zero (x : Nat → ℝ) (n : Nat) :
    splineRHS x (fun _ => 0) n = 0 := by
  funext i
  simp [splineRHS]

theorem splineSecondDeriv_zero (x : Nat → ℝ) (n : Nat) :
    splineSecondDeriv x (fun _ => 0) n = 0 := by
  unfold splineSecondDeriv
  rw [splineRHS_zero]
  exact Matrix.mulVec_zero _

theorem splineAntiderAux_zero (x : Nat → ℝ) (j : Nat) :
    splineAntiderAux x (fun _ => 0) (fun _ => 0) j = 0 := by
  induction j with
  | zero => rfl
  | succ j ih => simp [splineAntiderAux, ih]

theorem splineAntider_zero (xs ys : List ℝ) (hy : ∀ a ∈ ys, a = 0) :
    splineAntider xs ys = List.replicate xs.length 0 := by
  have hyf : (fun i => ys.getD i 0) = (fun _ : Nat => (0 : ℝ)) :=
    funext (fun i => getD_of_all_eq ys 0 hy i)
  unfold splineAntider
  rw [hyf]
  have hMf : (fun i : Nat =>
      if h : i < xs.length then
        splineSecondDeriv (fun i => xs.getD i 0) (fun _ : Nat => (0 : ℝ))
          xs.length ⟨i, h⟩
      else 0) = (fun _ : Nat => (0 : ℝ)) := by
    funext i
    split
    · rw [splineSecondDeriv_zero]
      rfl
    · rfl
  rw [hMf]
  refine List.eq_replicate_iff.2 ⟨by simp, ?_⟩
  intro b hb
  obtain ⟨j, hj, rfl⟩ := List.mem_map.1 hb
  exact splineAntiderAux_zero (fun i => xs.getD i 0) j

/-!  Reduction of the odd/even transform constructors on a successfully
constructed correlation function. -/

theorem oddft_eq (axis : TimeAxis) (p : Params) (cf : CorrelationFunction)
    (h : CorrelationFunction.init axis p none "Time" = .ok cf) :
    OddFTCorrelationFunction.init axis p =
      .ok (get_Fourier_transform axis.dt
        (cf.data.map fun z => Complex.I * ((z.im : ℝ) : ℂ))) := by
  obtain ⟨f, hfe, hmem⟩ := init_ok_ftype axis p none "Time" cf h
  rw [OddFTCorrelationFunction.init, hfe]
  simp [hmem, h]

theorem evenft_eq (axis : TimeAxis) (p : Params) (cf : CorrelationFunction)
    (h : CorrelationFunction.init axis p none "Time" = .ok cf) :
    EvenFTCorrelationFunction.init axis p =
      .ok (get_Fourier_transform axis.dt
        (cf.data.map fun z => ((z.re : ℝ) : ℂ))) := by
  obtain ⟨f, hfe, hmem⟩ := init_ok_ftype axis p none "Time" cf h
  rw [EvenFTCorrelationFunction.init, hfe]
  simp [hmem, h]

/-- C3: the Odd spectral transform replaces the correlation-function samples
with `i·Im(samples)` before Fourier transforming, and the Even transform with
`Re(samples)`; consequently purely real samples give an all-zero Odd result
and purely imaginary samples an all-zero Even result. -/
theorem C3_odd_even_symmetrization (axis : TimeAxis) (p : Params)
    (cf : CorrelationFunction)
    (h : CorrelationFunction.init axis p none "Time" = .ok cf) :
    (OddFTCorrelationFunction.init axis p =
      .ok (get_Fourier_transform axis.dt
        (cf.data.map fun z => Complex.I * ((z.im : ℝ) : ℂ))))
    ∧ (EvenFTCorrelationFunction.init axis p =
      .ok (get_Fourier_transform axis.dt
        (cf.data.map fun z => ((z.re : ℝ) : ℂ))))
    ∧ ((∀ z ∈ cf.data, z.im = 0) →
        ∃ d, OddFTCorrelationFunction.init axis p = .ok d ∧ ∀ z ∈ d, z = 0)
    ∧ ((∀ z ∈ cf.data, z.re = 0) →
        ∃ d, EvenFTCorrelationFunction.init axis p = .ok d ∧ ∀ z ∈ d, z = 0) := by
  refine ⟨oddft_eq axis p cf h, evenft_eq axis p cf h, ?_, ?_⟩
  · intro him
    refine ⟨_, oddft_eq axis p cf h, ?_⟩
    apply get_Fourier_transform_zero
    intro w hw
    obtain ⟨z, hz, rfl⟩ := List.mem_map.1 hw
    rw [him z hz]
    simp
  · intro hre
    refine ⟨_, evenft_eq axis p cf h, ?_⟩
    apply get_Fourier_transform_zero
    intro w hw
    obtain ⟨z, hz, rfl⟩ := List.mem_map.1 hw
    rw [hre z hz]
    simp

/-- High-temperature parameters with `reorg=0`, producing identically zero
samples (both purely real and purely imaginary). -/
def pW0 : Params :=
  { ftype := some "OverdampedBrownian-HighTemperature", T := some 1,
    cortime := some 1, reorg := some 0, matsubara := none,
    cutoff_time := none }

/-- Witness for C3 with `λ=0` high-temperature samples on the grid `[0]`. -/
theorem C3_odd_even_symmetrization_witness :
    (∃ d, OddFTCorrelationFunction.init axW pW0 = .ok d ∧ ∀ z ∈ d, z = 0)
    ∧ (∃ d, EvenFTCorrelationFunction.init axW pW0 = .ok d ∧ ∀ z ∈ d, z = 0) :=
  ⟨(C3_odd_even_symmetrization axW pW0 _
      (init_obht_eq axW pW0 none 1 1 0 rfl rfl rfl rfl)).2.2.1
      (by intro z hz; simp [axW, obhtSample] at hz; simp [hz]),
   (C3_odd_even_symmetrization axW pW0 _
      (init_obht_eq axW pW0 none 1 1 0 rfl rfl rfl rfl)).2.2.2
      (by intro z hz; simp [axW, obhtSample] at hz; simp [hz])⟩

/-- C4: `c2g` double-integrates the real and imaginary parts independently
(spline + antiderivative + evaluate, twice per part) and recombines them as
`real + i·imag`; in particular it maps an identically-zero sample sequence to
an identically-zero sequence of the same length. -/
theorem C4_c2g_lineshape (ta : TimeAxis) (coft : List ℂ) :
    (c2g ta coft =
      List.zipWith (fun a b => ((a : ℝ) : ℂ) + Complex.I * ((b : ℝ) : ℂ))
        (doubleIntegral ta (coft.map Complex.re))
        (doubleIntegral ta (coft.map Complex.im)))
    ∧ ((∀ z ∈ coft, z = 0) → coft.length = ta.data.length →
        c2g ta coft = List.replicate coft.length 0) := by
  constructor
  · rfl
  · intro h0 hlen
    have hre : ∀ a ∈ coft.map Complex.re, a = 0 := by
      intro a ha
      obtain ⟨z, hz, rfl⟩ := List.mem_map.1 ha
      rw [h0 z hz]
      simp
    have him : ∀ a ∈ coft.map Complex.im, a = 0 := by
      intro a ha
      obtain ⟨z, hz, rfl⟩ := List.mem_map.1 ha
      rw [h0 z hz]
      simp
    have hrep : ∀ a ∈ List.replicate ta.data.length (0 : ℝ), a = 0 :=
      fun a ha => List.eq_of_mem_replicate ha
    simp only [c2g, doubleIntegral]
    rw [splineAntider_zero _ _ hre, splineAntider_zero _ _ hrep,
      splineAntider_zero _ _ him, splineAntider_zero _ _ hrep,
      List.zipWith_replicate', hlen]
    norm_num

/-- Witness for C4: the all-zero sample sequence on a four-point grid. -/
theorem C4_c2g_lineshape_witness :
    c2g { data := [0, 1, 2, 3], dt := 1, tmax := 3 } [0, 0, 0, 0] =
      List.replicate 4 0 :=
  (C4_c2g_lineshape { data := [0, 1, 2, 3], dt := 1, tmax := 3 }
      [0, 0, 0, 0]).2 (by simp) rfl

/-!  Concrete constructed instances for the `add` and `copy` claims. -/

/-- The high-temperature instance constructed from `axW` and `pW1`. -/
noncomputable def cfA : CorrelationFunction :=
  { timeAxis := axW, params := pW1, time_domain := true, is_composed := false,
    ftype := "OverdampedBrownian-HighTemperature",
    data := axW.data.map (obhtSample 1 1 1), lamb := 1, T := some 1,
    cutoff_time := 5 * 1 }

/-- High-temperature parameters with a different temperature `T=2`. -/
def pW3 : Params :=
  { ftype := some "OverdampedBrownian-HighTemperature", T := some 2,
    cortime := some 1, reorg := some 1, matsubara := none,
    cutoff_time := none }

/-- The high-temperature instance constructed from `axW` and `pW3`
(same grid as `cfA`, different temperature). -/
noncomputable def cfB : CorrelationFunction :=
  { timeAxis := axW, params := pW3, time_domain := true, is_composed := false,
    ftype := "OverdampedBrownian-HighTemperature",
    data := axW.data.map (obhtSample 2 1 1), lamb := 1, T := some 2,
    cutoff_time := 5 * 1 }

/-- The Value-defined instance constructed from `axW`, `pVd` and values `[0]`. -/
noncomputable def cfVd : CorrelationFunction :=
  { timeAxis := axW, params := pVd, time_domain := true, is_composed := false,
    ftype := "Value-defined", data := [0], lamb := 0, T := none,
    cutoff_time := pVd.cutoff_time.getD axW.tmax }

/-- C5 (code evaluation): on a compatible pair — here literally the same
constructed instance, so the grids are identical and the temperatures equal —
`add` does not accumulate anything: it fails with the `AttributeError` raised
by the `cf.self.timeAxis` lookup.  The accumulation the claim (and the
source's own docstring) describes is unreachable. -/
theorem C5_add_attribute_error :
    CorrelationFunction.init axW pW1 none "Time" = .ok cfA
    ∧ CorrelationFunction.add cfA cfA = .error .attributeError :=
  ⟨init_obht_eq axW pW1 none 1 1 1 rfl rfl rfl rfl, rfl⟩

/-- C6 (code evaluation): for a pair with differing temperatures `add` raises
`AttributeError`, not `IncompatibleOperandError`, and for a compatible pair it
raises as well instead of succeeding — both from the `cf.self.timeAxis`
lookup. -/
theorem C6_add_error_class :
    CorrelationFunction.init axW pW3 none "Time" = .ok cfB
    ∧ cfA.T ≠ cfB.T
    ∧ CorrelationFunction.add cfA cfB = .error .attributeError
    ∧ CFError.attributeError ≠ CFError.incompatibleOperandError
    ∧ CorrelationFunction.add cfA cfA = .error .attributeError :=
  ⟨init_obht_eq axW pW3 none 2 1 1 rfl rfl rfl rfl,
   by norm_num [cfA, cfB], rfl, by decide, rfl⟩

/-- C9 (amended): `copy` re-invokes construction from the stored grid and
parameter set, passing no raw values; for the two analytic types the copy's
samples, λ, temperature and cutoff time all equal the original's. -/
theorem C9_copy_analytic (ta : TimeAxis) (p : Params) (vals : Option (List ℂ))
    (dom : String) (cf : CorrelationFunction)
    (h : CorrelationFunction.init ta p vals dom = .ok cf)
    (hf : p.ftype = some "OverdampedBrownian-HighTemperature" ∨
      p.ftype = some "OverdampedBrownian") :
    cf.copy = CorrelationFunction.init cf.timeAxis cf.params none "Time"
    ∧ ∃ cf2, cf.copy = .ok cf2 ∧ cf2.data = cf.data ∧ cf2.lamb = cf.lamb ∧
        cf2.T = cf.T ∧ cf2.cutoff_time = cf.cutoff_time := by
  refine ⟨rfl, ?_⟩
  rcases hf with hf | hf
  · obtain ⟨hdom, T, tc, r, hT, htc, hr, hcf⟩ :=
      init_obht_inv ta p vals dom cf hf h
    subst hcf
    exact ⟨_, init_obht_eq ta p none T tc r hf hT htc hr, rfl, rfl, rfl, rfl⟩
  · obtain ⟨T, tc, r, hT, htc, hr, hcf⟩ := init_ob_inv ta p vals dom cf hf h
    subst hcf
    exact ⟨_, init_ob_eq ta p none "Time" T tc r hf hT htc hr,
      rfl, rfl, rfl, rfl⟩

/-- Witness for C9's amended statement on the concrete high-temperature
instance `cfA`. -/
theorem C9_copy_analytic_witness :
    ∃ cf2, cfA.copy = .ok cf2 ∧ cf2.data = cfA.data ∧ cf2.lamb = cfA.lamb ∧
      cf2.T = cfA.T ∧ cf2.cutoff_time = cfA.cutoff_time :=
  (C9_copy_analytic axW pW1 none "Time" cfA
    (init_obht_eq axW pW1 none 1 1 1 rfl rfl rfl rfl) (Or.inl rfl)).2

/-- C9 counterexample: a constructed Value-defined instance whose `copy` does
not return a rebuilt CorrelationFunction at all — it fails with the
`TypeError` from `len(None)`, because `copy` passes no raw values. -/
theorem C9_copy_counterexample :
    CorrelationFunction.init axW pVd (some [0]) "Time" = .ok cfVd
    ∧ cfVd.copy = .error .typeError
    ∧ ∀ cf2, cfVd.copy ≠ .ok cf2 := by
  have h2 : cfVd.copy = .error .typeError := by
    show CorrelationFunction.init cfVd.timeAxis cfVd.params none "Time" = _
    simp [CorrelationFunction.init, cfVd, pVd, allowed_types]
  refine ⟨init_vd_eq axW pVd [0] 0 rfl rfl rfl, h2, ?_⟩
  intro cf2 hc
  rw [h2] at hc
  exact absurd hc (by simp)

end Quantarhei
